import Mathlib

/-!
Shallow embedding of the likeligrid sweep driver (run.py): the argument
generator iter_args, the pathway counters count_pathways_tsv and
count_pathways_json, and the named-pair selector tp53_pleiotropic_pair.
File contents are modelled as decoded values: a TSV file as its list of
lines (newline already stripped; rstrip is applied as in the source), a
JSON file as its decoded document tree.
-/

/-- Error taxonomy of the spec. Python exception classes are mapped onto it:
header-not-found in TSV mode and a missing or length-less pathway field in
JSON mode are malformedInput; a pathway name missing from the list
(ValueError from list.index) is lookupError; the unguarded negative index
on an empty header list is indexError. -/
inductive PyError where
  | malformedInput
  | lookupError
  | indexError
deriving DecidableEq, Repr

deriving instance DecidableEq for Except

/-- Decoded JSON document tree, as produced by json.load. -/
inductive Json where
  | null
  | bool (b : Bool)
  | num (n : Int)
  | str (s : String)
  | arr (xs : List Json)
  | obj (fields : List (String × Json))

/-- Python str.startswith on character lists. -/
def pyStartsWith : List Char → List Char → Bool
  | [], _ => true
  | _ :: _, [] => false
  | p :: ps, c :: cs => p = c && pyStartsWith ps cs

/-- Python str.rstrip(): remove trailing whitespace characters. -/
def pyRstrip (cs : List Char) : List Char :=
  (cs.reverse.dropWhile Char.isWhitespace).reverse

/-- Python str.split(sep) for a single-character separator: splitting the
empty string gives one empty field, and adjacent separators give empty
fields. -/
def splitOnChar (sep : Char) : List Char → List (List Char)
  | [] => [[]]
  | c :: rest =>
    let r := splitOnChar sep rest
    if c = sep then [] :: r
    else
      match r with
      | [] => [[c]]
      | g :: gs => (c :: g) :: gs

/-- Lookup of a key in a decoded JSON object; none when the key is absent
or the value is not an object. -/
def json_get (d : Json) (key : String) : Option Json :=
  match d with
  | .obj fields => (fields.find? (fun kv => kv.1 == key)).map (fun kv => kv.2)
  | _ => none

/-- Python subscript d[key]: a missing key (KeyError) or a non-dict value
is a malformed input in the spec taxonomy. -/
def pySubscript (d : Json) (key : String) : Except PyError Json :=
  match json_get d key with
  | some v => .ok v
  | none => .error .malformedInput

/-- Python len() on a decoded JSON value: defined on sequences (list, str)
and on dicts (number of keys); TypeError on number, boolean and null is a
malformed input in the spec taxonomy. -/
def pyLen : Json → Except PyError Nat
  | .arr xs => .ok xs.length
  | .str s => .ok s.length
  | .obj fs => .ok fs.length
  | _ => .error .malformedInput

/-- Python equality test of a JSON value against a string literal: true
exactly for the equal string, false for every other value. -/
def pyEqStr (target : String) (x : Json) : Bool :=
  match x with
  | .str s => s == target
  | _ => false

/-- Python list.index(name) for a string name: index of the first equal
element; ValueError when absent, which the spec calls LookupError. -/
def pyListIndex (xs : List Json) (target : String) : Except PyError Nat :=
  match xs.findIdx? (pyEqStr target) with
  | some i => .ok i
  | none => .error .lookupError

/-- count_pathways_tsv from run.py, on the list of lines of the file: skip
lines starting with the comment prefix, take the first other line as the
header, rstrip and split on tab, pop the leading loglik field, pop the last
field when it contains a colon, and return the remaining field count. The
scan loop leaving header unbound (Python NameError, header not found) is
malformedInput; the unguarded access header[-1] on an empty list is
indexError. -/
def count_pathways_tsv (lines : List String) : Except PyError Nat :=
  match lines.dropWhile (fun line => pyStartsWith "#".data line.data) with
  | [] => .error .malformedInput
  | line :: _ =>
    let header := (splitOnChar '\t' (pyRstrip line.data)).drop 1
    match header.getLast? with
    | none => .error .indexError
    | some lastField =>
      if lastField.contains ':' then .ok header.dropLast.length
      else .ok header.length

/-- count_pathways_json from run.py: the length of the pathway field of the
decoded document. -/
def count_pathways_json (d : Json) : Except PyError Nat :=
  match pySubscript d "pathway" with
  | .ok p => pyLen p
  | .error e => .error e

/-- tp53_pleiotropic_pair from run.py: the pair of indices of the names
Cycle and Damage in the pathway list of the decoded document, in that
order. A pathway value that is not a list is treated as invalid (the
string case, where Python would search a substring, is outside the
modelled domain). -/
def tp53_pleiotropic_pair (d : Json) : Except PyError (Nat × Nat) :=
  match pySubscript d "pathway" with
  | .error e => .error e
  | .ok (.arr p) =>
    match pyListIndex p "Cycle" with
    | .error e => .error e
    | .ok i =>
      match pyListIndex p "Damage" with
      | .error e => .error e
      | .ok j => .ok (i, j)
  | .ok _ => .error .malformedInput

/-- The fixed external program name from run.py. -/
def program : String := "likeligrid"

/-- An input file: its path together with its content under each of the
two readers (lines of text for the TSV reader, decoded document for the
JSON reader). -/
structure InputFile where
  path : String
  tsvLines : List String
  jsonDoc : Json

/-- Modelled from the spec: the swept-parameter flags built by the
external wtl.options helpers (sequential and make_args, absent from the
source tree) for the single axis named s, one flag per axis value. -/
def make_args (s : Int) : List String :=
  ["-s" ++ toString s]

/-- The pair flag token: the source formats both indices into one token,
a dash-e followed by the two indices separated by spaces. -/
def pairFlag (i j : Nat) : String :=
  "-e " ++ toString i ++ " " ++ toString j

/-- Python range(a, b) on natural numbers: a, a+1, ..., b-1. -/
def pyRangeNat (a b : Nat) : List Nat :=
  (List.range (b - a)).map (fun d => a + d)

/-- itertools.combinations(range(n), 2): every pair (i, j) with i < j < n,
in lexicographic order. -/
def combinations2 (n : Nat) : List (Nat × Nat) :=
  (List.range n).flatMap (fun i => (pyRangeNat (i + 1) n).map (fun j => (i, j)))

/-- Strict lexicographic order on index pairs. -/
def pairLexLt (a b : Nat × Nat) : Prop :=
  a.1 < b.1 ∨ (a.1 = b.1 ∧ a.2 < b.2)

/-- Normalization invariant of a PathwayIndexPair in the data model of the
spec: the first index is strictly below the second. -/
def normalized_pair (pr : Nat × Nat) : Prop :=
  pr.1 < pr.2

/-- The pathway count used by iter_args in epistasis mode: the TSV counter
when the dash-g token occurs in the const argument list, the JSON counter
otherwise. -/
def pathway_count (const : List String) (f : InputFile) : Except PyError Nat :=
  if const.contains "-g" then count_pathways_tsv f.tsvLines
  else count_pathways_json f.jsonDoc

/-- The jobs iter_args yields for one sweep value and one input file: the
body of the innermost loop of run.py. -/
def jobs_for_file (const args : List String) (epistasis tp53 : Bool) (f : InputFile) :
    Except PyError (List (List String)) :=
  if epistasis then
    match pathway_count const f with
    | .error e => .error e
    | .ok npath =>
      .ok ((combinations2 npath).map (fun x => const ++ [pairFlag x.1 x.2] ++ args ++ [f.path]))
  else if tp53 then
    match tp53_pleiotropic_pair f.jsonDoc with
    | .error e => .error e
    | .ok pair => .ok [const ++ [pairFlag pair.1 pair.2] ++ args ++ [f.path]]
  else
    .ok [const ++ args ++ [f.path]]

/-- The middle loop of iter_args: jobs for one sweep value over all input
files, in the given file order. -/
def jobs_for_files (const args : List String) (epistasis tp53 : Bool) :
    List InputFile → Except PyError (List (List String))
  | [] => .ok []
  | f :: fs =>
    match jobs_for_file const args epistasis tp53 f with
    | .error e => .error e
    | .ok js =>
      match jobs_for_files const args epistasis tp53 fs with
      | .error e => .error e
      | .ok more => .ok (js ++ more)

/-- The outer loop of iter_args: over the sweep values in given order. -/
def jobs_for_sweeps (const : List String) (infiles : List InputFile) (epistasis tp53 : Bool) :
    List Int → Except PyError (List (List String))
  | [] => .ok []
  | s :: ss =>
    match jobs_for_files const (make_args s) epistasis tp53 infiles with
    | .error e => .error e
    | .ok js =>
      match jobs_for_sweeps const infiles epistasis tp53 ss with
      | .error e => .error e
      | .ok more => .ok (js ++ more)

/-- iter_args from run.py, with the generator modelled as the finite list
of yielded argument lists (an exception anywhere in the iteration makes
the whole stream fail). -/
def iter_args (infiles : List InputFile) (range_s : List Int) (concurrency : Int)
    (rest : List String) (epistasis tp53 : Bool) : Except PyError (List (List String)) :=
  jobs_for_sweeps ([program, "-j" ++ toString concurrency] ++ rest) infiles epistasis tp53 range_s

/-- The number of jobs one input file contributes per sweep value: the
number of selected pairs in epistasis mode, one otherwise. -/
def file_weight (const : List String) (epistasis : Bool) (f : InputFile) : Except PyError Nat :=
  if epistasis then
    match pathway_count const f with
    | .error e => .error e
    | .ok npath => .ok (combinations2 npath).length
  else .ok 1

lemma list_range_map_sum (g : Nat → Nat) (n : Nat) :
    ((List.range n).map g).sum = ∑ i ∈ Finset.range n, g i := by
  induction n with
  | zero => rfl
  | succ m ih =>
    rw [List.range_succ, List.map_append, List.sum_append, Finset.sum_range_succ, ih]
    simp

lemma gauss_sub_sum (n : Nat) :
    ((List.range n).map (fun i => n - (i + 1))).sum = n * (n - 1) / 2 := by
  rw [list_range_map_sum]
  have hr := Finset.sum_range_reflect (fun i => i) n
  simp only at hr
  have hc : ∑ i ∈ Finset.range n, (n - (i + 1)) = ∑ j ∈ Finset.range n, (n - 1 - j) := by
    apply Finset.sum_congr rfl
    intro i _
    omega
  rw [hc, hr, Finset.sum_range_id]

/-- Claim C2: for every pathway count k, the exhaustive-pair policy yields
exactly k(k-1)/2 pairs, each satisfying i < j < k, enumerated in strictly
increasing lexicographic order (hence all distinct), and for k below 2 it
yields the empty sequence without error. -/
theorem combinations2_spec (k : Nat) :
    (combinations2 k).length = k * (k - 1) / 2
    ∧ (∀ p ∈ combinations2 k, p.1 < p.2 ∧ p.2 < k)
    ∧ (combinations2 k).Pairwise pairLexLt
    ∧ (combinations2 k).Nodup
    ∧ (k < 2 → combinations2 k = []) := by
  have hlen : (combinations2 k).length = k * (k - 1) / 2 := by
    rw [combinations2, List.length_flatMap]
    have he : List.map (List.length ∘ fun i => (pyRangeNat (i + 1) k).map (fun j => (i, j)))
        (List.range k) = List.map (fun i => k - (i + 1)) (List.range k) := by
      apply List.map_congr_left
      intro i _
      simp [pyRangeNat]
    rw [he, gauss_sub_sum]
  have hmem : ∀ p ∈ combinations2 k, p.1 < p.2 ∧ p.2 < k := by
    intro p hp
    simp only [combinations2, List.mem_flatMap, List.mem_map, List.mem_range, pyRangeNat] at hp
    obtain ⟨i, hi, ⟨j, ⟨d, hd, hj⟩, hpj⟩⟩ := hp
    subst hpj
    simp only
    omega
  have hpw : (combinations2 k).Pairwise pairLexLt := by
    rw [combinations2, List.pairwise_flatMap]
    constructor
    · intro i _
      rw [List.pairwise_map]
      have hinner : (pyRangeNat (i + 1) k).Pairwise (· < ·) := by
        rw [pyRangeNat, List.pairwise_map]
        exact (List.pairwise_lt_range _).imp (by omega)
      exact hinner.imp (fun h => Or.inr ⟨rfl, h⟩)
    · apply (List.pairwise_lt_range k).imp
      intro a b hab x hx y hy
      simp only [List.mem_map] at hx hy
      obtain ⟨jx, _, hxe⟩ := hx
      obtain ⟨jy, _, hye⟩ := hy
      subst hxe; subst hye
      exact Or.inl hab
  refine ⟨hlen, hmem, hpw, ?_, ?_⟩
  · have hne : ∀ {a b : Nat × Nat}, pairLexLt a b → a ≠ b := by
      intro a b h he
      subst he
      rcases h with h | ⟨h1, h2⟩ <;> omega
    exact hpw.imp hne
  · intro hk
    match k, hk with
    | 0, _ => rfl
    | 1, _ => rfl

/-- Witness for claim C2, at k = 1 and k = 3. -/
theorem combinations2_spec_witness :
    combinations2 1 = [] ∧ (combinations2 3).length = 3 := by
  constructor
  · exact (combinations2_spec 1).2.2.2.2 (by decide)
  · exact ((combinations2_spec 3).1).trans (by norm_num)

/-- Claim C4: the TSV counter fails with the header-not-found error exactly
when every line of the input begins with the comment prefix (in particular
on empty input); an input with a non-comment line never produces that
error. -/
theorem count_pathways_tsv_header_missing (lines : List String) :
    count_pathways_tsv lines = .error .malformedInput ↔
      ∀ line ∈ lines, pyStartsWith "#".data line.data = true := by
  have key : count_pathways_tsv lines = .error .malformedInput ↔
      lines.dropWhile (fun line => pyStartsWith "#".data line.data) = [] := by
    constructor
    · intro h
      cases hd : lines.dropWhile (fun line => pyStartsWith "#".data line.data) with
      | nil => rfl
      | cons line restLines =>
        rw [count_pathways_tsv, hd] at h
        simp only at h
        split at h <;> try split at h
        all_goals simp at h
    · intro h
      rw [count_pathways_tsv, h]
  exact key.trans List.dropWhile_eq_nil_iff

lemma dropWhile_append_comments (p : String → Bool) (comments : List String) (line : String)
    (more : List String) (hc : ∀ c ∈ comments, p c = true) (hl : p line = false) :
    (comments ++ line :: more).dropWhile p = line :: more := by
  induction comments with
  | nil => simp [List.dropWhile_cons, hl]
  | cons c cs ih =>
    have hc0 : p c = true := hc c (by simp)
    simp only [List.cons_append, List.dropWhile_cons, hc0, if_pos]
    exact ih (fun x hx => hc x (by simp [hx]))

/-- Claim C5: when the first non-comment line rstrips and tab-splits into
the loglik field followed by a nonempty list of pathway names, none of
which contains a colon, the TSV counter returns the number of names, both
without a trailing colon-bearing annotation field and with one. -/
theorem count_pathways_tsv_header_count (comments : List String) (line : String)
    (more : List String) (loglik : List Char) (names : List (List Char))
    (hc : ∀ c ∈ comments, pyStartsWith "#".data c.data = true)
    (hl : pyStartsWith "#".data line.data = false)
    (hn : names ≠ [])
    (hcol : ∀ nm ∈ names, nm.contains ':' = false) :
    (splitOnChar '\t' (pyRstrip line.data) = loglik :: names →
       count_pathways_tsv (comments ++ line :: more) = .ok names.length)
    ∧ (∀ ann, ann.contains ':' = true →
       splitOnChar '\t' (pyRstrip line.data) = loglik :: (names ++ [ann]) →
       count_pathways_tsv (comments ++ line :: more) = .ok names.length) := by
  have hdrop := dropWhile_append_comments (fun l => pyStartsWith "#".data l.data)
    comments line more hc hl
  constructor
  · intro hsplit
    rw [count_pathways_tsv, hdrop]
    simp only [hsplit, List.drop_one, List.tail_cons]
    have hlast : names.getLast? = some (names.getLast hn) := List.getLast?_eq_getLast names hn
    rw [hlast]
    have hmem : names.getLast hn ∈ names := List.getLast_mem hn
    have hnot := hcol _ hmem
    simp at hnot
    simp [hnot]
  · intro ann hann hsplit
    rw [count_pathways_tsv, hdrop]
    simp only [hsplit, List.drop_one, List.tail_cons]
    rw [List.getLast?_concat]
    simp at hann
    simp [hann, List.dropLast_concat]

/-- Witness for claim C5: a header with two pathway columns, once plain
and once with a trailing annotation column. -/
theorem count_pathways_tsv_header_count_witness :
    count_pathways_tsv ["#h", "LL\tA\tB"] = .ok 2
    ∧ count_pathways_tsv ["LL\tA\tB\tq:r"] = .ok 2 := by
  constructor
  · exact (count_pathways_tsv_header_count ["#h"] "LL\tA\tB" [] "LL".data [['A'], ['B']]
      (by decide) (by decide) (by decide) (by decide)).1 (by decide)
  · exact (count_pathways_tsv_header_count [] "LL\tA\tB\tq:r" [] "LL".data [['A'], ['B']]
      (by decide) (by decide) (by decide) (by decide)).2 ['q', ':', 'r'] (by decide) (by decide)

/-- Claim C10: when the first non-comment line rstrips and tab-splits into
exactly one field, the TSV counter does not return a count: removing the
leading field leaves an empty list and the unguarded access of its last
field fails. -/
theorem count_pathways_tsv_single_field (comments : List String) (line : String)
    (more : List String) (x : List Char)
    (hc : ∀ c ∈ comments, pyStartsWith "#".data c.data = true)
    (hl : pyStartsWith "#".data line.data = false)
    (hs : splitOnChar '\t' (pyRstrip line.data) = [x]) :
    count_pathways_tsv (comments ++ line :: more) = .error .indexError := by
  have hdrop := dropWhile_append_comments (fun l => pyStartsWith "#".data l.data)
    comments line more hc hl
  rw [count_pathways_tsv, hdrop]
  simp [hs]

/-- Witness for claim C10: a header holding only the loglik column. -/
theorem count_pathways_tsv_single_field_witness :
    count_pathways_tsv ["loglik"] = .error .indexError :=
  count_pathways_tsv_single_field [] "loglik" [] "loglik".data
    (by decide) (by decide) (by decide)

lemma tp53_pair_eval (d : Json) (p : List Json) (i j : Nat)
    (hp : json_get d "pathway" = some (.arr p))
    (hi : p.findIdx? (pyEqStr "Cycle") = some i)
    (hj : p.findIdx? (pyEqStr "Damage") = some j) :
    tp53_pleiotropic_pair d = .ok (i, j) := by
  simp only [tp53_pleiotropic_pair, pySubscript, hp, pyListIndex, hi, hj]

/-- Claim C3: on a document whose pathway field decodes to a sequence, the
named-pair policy returns the pair of the index of Cycle and the index of
Damage when both names occur, and fails with the lookup error when either
name is absent. -/
theorem tp53_pair_spec (d : Json) (p : List Json)
    (hp : json_get d "pathway" = some (.arr p)) :
    (∀ i j, p.findIdx? (pyEqStr "Cycle") = some i →
       p.findIdx? (pyEqStr "Damage") = some j →
       tp53_pleiotropic_pair d = .ok (i, j))
    ∧ ((∀ x ∈ p, pyEqStr "Cycle" x = false) ∨ (∀ x ∈ p, pyEqStr "Damage" x = false) →
       tp53_pleiotropic_pair d = .error .lookupError) := by
  constructor
  · intro i j hi hj
    exact tp53_pair_eval d p i j hp hi hj
  · intro habs
    rcases habs with habs | habs
    · have hnone : p.findIdx? (pyEqStr "Cycle") = none := List.findIdx?_eq_none_iff.mpr habs
      simp only [tp53_pleiotropic_pair, pySubscript, hp, pyListIndex, hnone]
    · have hnone : p.findIdx? (pyEqStr "Damage") = none := List.findIdx?_eq_none_iff.mpr habs
      cases hc : p.findIdx? (pyEqStr "Cycle") with
      | none => simp only [tp53_pleiotropic_pair, pySubscript, hp, pyListIndex, hc]
      | some i => simp only [tp53_pleiotropic_pair, pySubscript, hp, pyListIndex, hc, hnone]

/-- Witness for claim C3: both names present gives the index pair; a
missing Damage gives the lookup error. -/
theorem tp53_pair_spec_witness :
    tp53_pleiotropic_pair
        (Json.obj [("pathway", Json.arr [Json.str "Cycle", Json.str "Damage"])]) = .ok (0, 1)
    ∧ tp53_pleiotropic_pair
        (Json.obj [("pathway", Json.arr [Json.str "Cycle", Json.str "Growth"])]) =
      .error .lookupError := by
  constructor
  · exact (tp53_pair_spec (Json.obj [("pathway", Json.arr [Json.str "Cycle", Json.str "Damage"])])
      [Json.str "Cycle", Json.str "Damage"] rfl).1 0 1 rfl rfl
  · exact (tp53_pair_spec (Json.obj [("pathway", Json.arr [Json.str "Cycle", Json.str "Growth"])])
      [Json.str "Cycle", Json.str "Growth"] rfl).2 (Or.inr (by decide))

/-- Counterexample for claim C8: a pathway field holding an object (not a
sequence) does not make the JSON counter fail; it returns the number of
keys of the object. -/
theorem count_pathways_json_object_no_error :
    count_pathways_json (Json.obj [("pathway", Json.obj [("G1", Json.num 1)])]) = .ok 1
    ∧ count_pathways_json (Json.obj [("pathway", Json.obj [("G1", Json.num 1)])]) ≠
      .error .malformedInput := by
  constructor
  · rfl
  · intro h
    have h1 : count_pathways_json (Json.obj [("pathway", Json.obj [("G1", Json.num 1)])]) =
        Except.ok 1 := rfl
    rw [h1] at h
    exact Except.noConfusion h

/-- Claim C8 as amended: the JSON counter returns the length of a
sequence-valued pathway field (list or string) and fails with the
malformed-input error when the field is absent or holds a number, boolean
or null; an object-valued field does not fail but yields its key count. -/
theorem count_pathways_json_spec (d : Json) :
    (json_get d "pathway" = none → count_pathways_json d = .error .malformedInput)
    ∧ (∀ xs, json_get d "pathway" = some (.arr xs) → count_pathways_json d = .ok xs.length)
    ∧ (∀ s, json_get d "pathway" = some (.str s) → count_pathways_json d = .ok s.length)
    ∧ (∀ fs, json_get d "pathway" = some (.obj fs) → count_pathways_json d = .ok fs.length)
    ∧ (∀ n, json_get d "pathway" = some (.num n) → count_pathways_json d = .error .malformedInput)
    ∧ (∀ b, json_get d "pathway" = some (.bool b) → count_pathways_json d = .error .malformedInput)
    ∧ (json_get d "pathway" = some .null → count_pathways_json d = .error .malformedInput) := by
  refine ⟨?_, ?_, ?_, ?_, ?_, ?_, ?_⟩ <;>
    first
    | (intro h; simp only [count_pathways_json, pySubscript, h, pyLen])
    | (intro v h; simp only [count_pathways_json, pySubscript, h, pyLen])

/-- Witness for the amended claim C8: a two-element pathway list counts to
two, and a document without the pathway field fails. -/
theorem count_pathways_json_spec_witness :
    count_pathways_json (Json.obj [("pathway", Json.arr [Json.str "A", Json.str "B"])]) = .ok 2
    ∧ count_pathways_json (Json.obj [("other", Json.null)]) = .error .malformedInput := by
  constructor
  · exact (count_pathways_json_spec
      (Json.obj [("pathway", Json.arr [Json.str "A", Json.str "B"])])).2.1
      [Json.str "A", Json.str "B"] rfl
  · exact (count_pathways_json_spec (Json.obj [("other", Json.null)])).1 rfl

/-- Claim C9: in tp53 mode the emitted pair flag always carries the index
of Cycle first and the index of Damage second; when Cycle occurs after
Damage in the sequence the first index exceeds the second, so the emitted
pair violates the normalization invariant of PathwayIndexPair. -/
theorem tp53_pair_order (f : InputFile) (p : List Json) (i j : Nat) (const args : List String)
    (hp : json_get f.jsonDoc "pathway" = some (.arr p))
    (hi : p.findIdx? (pyEqStr "Cycle") = some i)
    (hj : p.findIdx? (pyEqStr "Damage") = some j) :
    tp53_pleiotropic_pair f.jsonDoc = .ok (i, j)
    ∧ jobs_for_file const args false true f = .ok [const ++ [pairFlag i j] ++ args ++ [f.path]]
    ∧ (j < i → ¬ normalized_pair (i, j)) := by
  have heval := tp53_pair_eval f.jsonDoc p i j hp hi hj
  refine ⟨heval, ?_, ?_⟩
  · simp only [jobs_for_file, Bool.false_eq_true, if_false, if_true, heval]
  · intro hji
    simp only [normalized_pair]
    omega

/-- Witness for claim C9: the pathway list Damage, Growth, Cycle yields
the non-normalized pair of indices two and zero, and the emitted flag
token carries them in that order. -/
theorem tp53_pair_order_witness :
    tp53_pleiotropic_pair
        (Json.obj [("pathway",
          Json.arr [Json.str "Damage", Json.str "Growth", Json.str "Cycle"])]) = .ok (2, 0)
    ∧ jobs_for_file ["likeligrid", "-j3"] ["-s2"] false true
        ⟨"g.json", [],
          Json.obj [("pathway",
            Json.arr [Json.str "Damage", Json.str "Growth", Json.str "Cycle"])]⟩ =
      .ok [["likeligrid", "-j3", "-e 2 0", "-s2", "g.json"]]
    ∧ ¬ normalized_pair (2, 0) := by
  have h := tp53_pair_order
    ⟨"g.json", [],
      Json.obj [("pathway",
        Json.arr [Json.str "Damage", Json.str "Growth", Json.str "Cycle"])]⟩
    [Json.str "Damage", Json.str "Growth", Json.str "Cycle"] 2 0
    ["likeligrid", "-j3"] ["-s2"] rfl rfl rfl
  exact ⟨h.1, h.2.1, h.2.2 (by decide)⟩

lemma append_j_ne (t : String) : ("-j" ++ t) ≠ "-g" := by
  intro h
  have h2 : ("-j" ++ t).data = "-g".data := by rw [h]
  rw [String.data_append] at h2
  have h3 : "-j".data = ['-', 'j'] := rfl
  have h4 : "-g".data = ['-', 'g'] := rfl
  rw [h3, h4] at h2
  injection h2 with _ h5
  injection h5 with h6 _
  exact absurd h6 (by decide)

/-- Claim C6: the counter selected by the epistasis branch depends only on
whether the dash-g token occurs among the forwarded passthrough arguments;
the program name and the concurrency token never match it. -/
theorem pathway_count_flag (c : Int) (rest : List String) (f : InputFile) :
    pathway_count ([program, "-j" ++ toString c] ++ rest) f =
      if rest.contains "-g" then count_pathways_tsv f.tsvLines
      else count_pathways_json f.jsonDoc := by
  have h1 : (("-g" : String) == program) = false := by decide
  have h2 : (("-g" : String) == ("-j" ++ toString c)) = false :=
    beq_eq_false_iff_ne.mpr (fun h => append_j_ne (toString c) h.symm)
  rw [pathway_count]
  have hl : ([program, "-j" ++ toString c] ++ rest) =
      program :: ("-j" ++ toString c) :: rest := rfl
  rw [hl, List.contains_cons, List.contains_cons, h1, h2, Bool.false_or, Bool.false_or]

lemma jobs_for_files_no_mode (const args : List String) (fs : List InputFile) :
    jobs_for_files const args false false fs =
      .ok (fs.map (fun f => const ++ args ++ [f.path])) := by
  induction fs with
  | nil => rfl
  | cons f fs ih => simp [jobs_for_files, jobs_for_file, ih]

lemma jobs_for_sweeps_no_mode (const : List String) (infiles : List InputFile)
    (ss : List Int) :
    jobs_for_sweeps const infiles false false ss =
      .ok ((ss.map (fun s =>
        infiles.map (fun f => const ++ make_args s ++ [f.path]))).flatten) := by
  induction ss with
  | nil => rfl
  | cons s ss ih => simp [jobs_for_sweeps, jobs_for_files_no_mode, ih]

/-- Claim C7: with neither mode active the generator yields one job per
sweep value and file, the outer loop over the sweep values and the inner
loop over the files in given order, each job being the constant prefix,
the passthrough arguments, the swept flags and the file path, with no pair
flag; the job count is the product of the two lengths; in particular two
files and the sweep values two and three give exactly these four jobs. -/
theorem iter_args_no_mode :
    (∀ (infiles : List InputFile) (range_s : List Int) (c : Int) (rest : List String),
      iter_args infiles range_s c rest false false =
        .ok ((range_s.map (fun s => infiles.map (fun f =>
          ([program, "-j" ++ toString c] ++ rest) ++ make_args s ++ [f.path]))).flatten)
      ∧ ((range_s.map (fun s => infiles.map (fun f =>
          ([program, "-j" ++ toString c] ++ rest) ++ make_args s ++ [f.path]))).flatten).length
        = range_s.length * infiles.length)
    ∧ iter_args [⟨"a", [], Json.null⟩, ⟨"b", [], Json.null⟩] [2, 3] 3 ["-u"] false false =
      .ok [["likeligrid", "-j3", "-u", "-s2", "a"], ["likeligrid", "-j3", "-u", "-s2", "b"],
           ["likeligrid", "-j3", "-u", "-s3", "a"], ["likeligrid", "-j3", "-u", "-s3", "b"]] := by
  constructor
  · intro infiles range_s c rest
    constructor
    · rw [iter_args, jobs_for_sweeps_no_mode]
    · rw [List.length_flatten, List.map_map]
      have he : (List.length ∘ fun s => infiles.map (fun f =>
          ([program, "-j" ++ toString c] ++ rest) ++ make_args s ++ [f.path]))
          = fun _ => infiles.length := by
        funext s
        simp
      rw [he, List.map_const', List.sum_replicate, smul_eq_mul]
  · decide

lemma jobs_for_file_weight (const args : List String) (e t : Bool) (f : InputFile)
    (l : List (List String)) (h : jobs_for_file const args e t f = .ok l) :
    file_weight const e f = .ok l.length := by
  cases e with
  | true =>
    rw [jobs_for_file, if_pos rfl] at h
    rw [file_weight, if_pos rfl]
    cases hp : pathway_count const f with
    | error e0 => rw [hp] at h; exact absurd h (by simp)
    | ok npath =>
      rw [hp] at h
      injection h with h1
      rw [← h1, List.length_map]
  | false =>
    rw [jobs_for_file] at h
    rw [file_weight]
    simp only [Bool.false_eq_true, if_false] at h ⊢
    cases t with
    | false =>
      simp only [Bool.false_eq_true, if_false] at h
      injection h with h1
      rw [← h1]
      rfl
    | true =>
      simp only [if_pos rfl] at h
      cases hp : tp53_pleiotropic_pair f.jsonDoc with
      | error e0 => rw [hp] at h; exact absurd h (by simp)
      | ok pair =>
        rw [hp] at h
        injection h with h1
        rw [← h1]
        rfl

lemma jobs_for_files_weight (const args : List String) (e t : Bool) (fs : List InputFile)
    (w : InputFile → Nat) (hw : ∀ f ∈ fs, file_weight const e f = .ok (w f))
    (l : List (List String)) (h : jobs_for_files const args e t fs = .ok l) :
    l.length = (fs.map w).sum := by
  induction fs generalizing l with
  | nil =>
    rw [jobs_for_files] at h
    injection h with h1
    rw [← h1]
    simp
  | cons f fs ih =>
    rw [jobs_for_files] at h
    cases h1 : jobs_for_file const args e t f with
    | error e0 => rw [h1] at h; exact absurd h (by simp)
    | ok js =>
      rw [h1] at h
      cases h2 : jobs_for_files const args e t fs with
      | error e0 => rw [h2] at h; exact absurd h (by simp)
      | ok more =>
        rw [h2] at h
        injection h with h3
        have hfw := jobs_for_file_weight const args e t f js h1
        have hwf := hw f (by simp)
        rw [hwf] at hfw
        injection hfw with h4
        have hrest := ih (fun x hx => hw x (by simp [hx])) more h2
        rw [← h3, List.length_append, List.map_cons, List.sum_cons, hrest, h4]

lemma jobs_for_sweeps_weight (const : List String) (infiles : List InputFile) (e t : Bool)
    (ss : List Int) (w : InputFile → Nat)
    (hw : ∀ f ∈ infiles, file_weight const e f = .ok (w f))
    (l : List (List String)) (h : jobs_for_sweeps const infiles e t ss = .ok l) :
    l.length = ss.length * (infiles.map w).sum := by
  induction ss generalizing l with
  | nil =>
    rw [jobs_for_sweeps] at h
    injection h with h1
    rw [← h1]
    simp
  | cons s ss ih =>
    rw [jobs_for_sweeps] at h
    cases h1 : jobs_for_files const (make_args s) e t infiles with
    | error e0 => rw [h1] at h; exact absurd h (by simp)
    | ok js =>
      rw [h1] at h
      cases h2 : jobs_for_sweeps const infiles e t ss with
      | error e0 => rw [h2] at h; exact absurd h (by simp)
      | ok more =>
        rw [h2] at h
        injection h with h3
        have hjs := jobs_for_files_weight const (make_args s) e t infiles w hw js h1
        have hmore := ih more h2
        rw [← h3, List.length_append, hjs, hmore, List.length_cons]
        ring

/-- Claim C1: whenever the generator runs to completion, the number of
jobs it yields is the number of sweep values times the sum over input
files of the per-file weight: the number of selected pairs in epistasis
mode, one in tp53 mode, one with no mode. -/
theorem iter_args_length (infiles : List InputFile) (range_s : List Int) (c : Int)
    (rest : List String) (epistasis tp53 : Bool) (jobs : List (List String))
    (w : InputFile → Nat)
    (hw : ∀ f ∈ infiles,
      file_weight ([program, "-j" ++ toString c] ++ rest) epistasis f = .ok (w f))
    (h : iter_args infiles range_s c rest epistasis tp53 = .ok jobs) :
    jobs.length = range_s.length * (infiles.map w).sum := by
  exact jobs_for_sweeps_weight ([program, "-j" ++ toString c] ++ rest) infiles
    epistasis tp53 range_s w hw jobs h

/-- Witness for claim C1: one epistasis-mode file with three pathways
(weight three) and two sweep values give six jobs. -/
theorem iter_args_length_witness :
    ([["likeligrid", "-j3", "-e 0 1", "-s2", "g.json"],
      ["likeligrid", "-j3", "-e 0 2", "-s2", "g.json"],
      ["likeligrid", "-j3", "-e 1 2", "-s2", "g.json"],
      ["likeligrid", "-j3", "-e 0 1", "-s3", "g.json"],
      ["likeligrid", "-j3", "-e 0 2", "-s3", "g.json"],
      ["likeligrid", "-j3", "-e 1 2", "-s3", "g.json"]] : List (List String)).length =
      ([2, 3] : List Int).length *
        (([⟨"g.json", [],
            Json.obj [("pathway", Json.arr [Json.str "A", Json.str "B", Json.str "C"])]⟩] :
          List InputFile).map (fun _ => 3)).sum :=
  iter_args_length
    [⟨"g.json", [], Json.obj [("pathway", Json.arr [Json.str "A", Json.str "B", Json.str "C"])]⟩]
    [2, 3] 3 [] true false
    [["likeligrid", "-j3", "-e 0 1", "-s2", "g.json"],
     ["likeligrid", "-j3", "-e 0 2", "-s2", "g.json"],
     ["likeligrid", "-j3", "-e 1 2", "-s2", "g.json"],
     ["likeligrid", "-j3", "-e 0 1", "-s3", "g.json"],
     ["likeligrid", "-j3", "-e 0 2", "-s3", "g.json"],
     ["likeligrid", "-j3", "-e 1 2", "-s3", "g.json"]]
    (fun _ => 3) (by decide) (by decide)

/-- Witness for claim C4: an input of comment lines only fails with the
header-not-found error. -/
theorem count_pathways_tsv_header_missing_witness :
    count_pathways_tsv ["# a", "# b"] = .error .malformedInput :=
  (count_pathways_tsv_header_missing ["# a", "# b"]).mpr (by decide)

/-- Witness for claim C6: with the dash-g token among the passthrough
arguments the TSV counter is consulted. -/
theorem pathway_count_flag_witness :
    pathway_count ([program, "-j" ++ toString (3 : Int)] ++ ["-g"])
        ⟨"f", ["loglik\tA\tB"], Json.null⟩ =
      count_pathways_tsv ["loglik\tA\tB"] :=
  (pathway_count_flag 3 ["-g"] ⟨"f", ["loglik\tA\tB"], Json.null⟩).trans (by decide)

/-- Witness for claim C7: one file and one sweep value with no mode give
the single job with no pair flag. -/
theorem iter_args_no_mode_witness :
    iter_args [⟨"x", [], Json.null⟩] [5] 2 [] false false =
      .ok [["likeligrid", "-j2", "-s5", "x"]] := by
  have h := (iter_args_no_mode.1 [⟨"x", [], Json.null⟩] [5] 2 []).1
  rw [h]
  decide
